import Mathlib

/-!
Verification of the website-category-finder service (src/main.py).

The development shallowly embeds the three components of the program:
the content extractor (`extract_website_text_async`), the classifier
boundary (modelled as an oracle function, since the language-model call
is external I/O), and the request handler (`categorize_website`).
HTML documents are modelled as trees of element/text nodes, matching
what BeautifulSoup exposes to the extractor.
-/

namespace WebCat

mutual
/-- A parsed HTML node: a text fragment, or an element with a tag and
children, as BeautifulSoup presents the document to the extractor. -/
inductive Node where
  | text (s : String)
  | elem (tag : String) (children : NodeList)
/-- A sequence of sibling HTML nodes in document order. -/
inductive NodeList where
  | nil
  | cons (head : Node) (tail : NodeList)
end

/-- The tags removed by the extractor loop
`for element in soup(["script", "style", "nav", "footer", "header"]): element.decompose()`. -/
def removedTags : List String := ["script", "style", "nav", "footer", "header"]

/-- `element.decompose()` applied to every element whose tag is in `banned`:
such elements are removed together with all their descendants, everything
else is kept in document order. -/
def decomposeList (banned : List String) : NodeList → NodeList
  | NodeList.nil => NodeList.nil
  | NodeList.cons (Node.text s) rest => NodeList.cons (Node.text s) (decomposeList banned rest)
  | NodeList.cons (Node.elem t cs) rest =>
    if t ∈ banned then decomposeList banned rest
    else NodeList.cons (Node.elem t (decomposeList banned cs)) (decomposeList banned rest)

/-- All text fragments of a node list in document order (BeautifulSoup's
`strings` traversal underlying `get_text`). -/
def fragmentsList : NodeList → List String
  | NodeList.nil => []
  | NodeList.cons (Node.text s) rest => s :: fragmentsList rest
  | NodeList.cons (Node.elem _ cs) rest => fragmentsList cs ++ fragmentsList rest

/-- Specification-side characterisation: the text fragments that do not sit
inside any element whose tag is in `banned`. -/
def goodFragmentsList (banned : List String) : NodeList → List String
  | NodeList.nil => []
  | NodeList.cons (Node.text s) rest => s :: goodFragmentsList banned rest
  | NodeList.cons (Node.elem t cs) rest =>
    if t ∈ banned then goodFragmentsList banned rest
    else goodFragmentsList banned cs ++ goodFragmentsList banned rest

/-- Python's `str.strip()`: remove leading and trailing whitespace. -/
def strip (s : String) : String :=
  String.mk (((s.data.dropWhile Char.isWhitespace).reverse.dropWhile Char.isWhitespace).reverse)

/-- `soup.get_text(separator=" ", strip=True)`: each text fragment is
stripped, fragments that strip to the empty string are skipped, and the
survivors are joined with a single space. -/
def get_text (ns : NodeList) : String :=
  String.intercalate " "
    (((fragmentsList ns).map strip).filter (fun s => decide (s ≠ "")))

/-- The text the extractor computes from a parsed body before truncation:
decompose the banned tags, then `get_text`. -/
def soupText (body : NodeList) : String :=
  get_text (decomposeList removedTags body)

/-- An HTTP response as the extractor sees it: a status code, and the body
already parsed into an HTML node tree. -/
structure Response where
  status_code : Nat
  body : NodeList

/-- Outcome of `client.get`: either a response, or a network-level failure
(`httpx.RequestError`) carrying a diagnostic message. -/
inductive FetchOutcome where
  | response (r : Response)
  | requestError (msg : String)

/-- The ways a request can fail, as exceptions escaping the handler:
`HTTPException(status, detail)` raised explicitly, `httpx.HTTPStatusError`
from `raise_for_status` (uncaught in the source), or the `ValueError`
raised on empty stripped text (also uncaught). -/
inductive Failure where
  | httpException (status : Nat) (detail : String)
  | httpStatusError (status : Nat)
  | valueError (msg : String)
deriving Repr, DecidableEq

/-- `response.is_success` as used by `raise_for_status`: 2xx statuses. -/
def is_success (status : Nat) : Bool := 200 ≤ status && status < 300

/-- `extract_website_text_async` from src/main.py, lines 31-54: raise 403
access-denied on status 403, `raise_for_status` on other non-2xx, strip the
banned tags and extract text, reject empty text, truncate to 5000
characters; `httpx.RequestError` becomes a 502 with the network message. -/
def extract_website_text_async (f : FetchOutcome) : Except Failure String :=
  match f with
  | FetchOutcome.requestError msg =>
    Except.error (Failure.httpException 502 ("Network error: " ++ msg))
  | FetchOutcome.response r =>
    if r.status_code = 403 then
      Except.error (Failure.httpException 403
        "Access denied by website (Cloudflare/Bot protection).")
    else if !is_success r.status_code then
      Except.error (Failure.httpStatusError r.status_code)
    else if soupText r.body = "" then
      Except.error (Failure.valueError "Website returned no readable text.")
    else
      Except.ok ((soupText r.body).take 5000)

/-- `ALLOWED_NICHES` from src/main.py, lines 14-19. -/
def ALLOWED_NICHES : List String := [
    "Business", "Digital Marketing & Advertising", "Technology / Gadgets & Technology",
    "SaaS", "Ecommerce", "Finance", "Health", "Lifestyle", "Education",
    "Real Estate", "Casino", "CBD", "Blockchain & Cryptocurrency",
    "Gaming", "Pharmacy", "Banking", "Energy", "Manufacturing & Industry", "Science"
]

/-- The spec's §3 rendition of the allow-list, written exactly as the spec
spells the labels, for comparison with the source's `ALLOWED_NICHES`. -/
def specNiches : List String := [
    "Business", "Digital Marketing & Advertising", "Technology/Gadgets & Technology",
    "SaaS", "Ecommerce", "Finance", "Health", "Lifestyle", "Education",
    "Real Estate", "Casino", "CBD", "Blockchain & Cryptocurrency",
    "Gaming", "Pharmacy", "Banking", "Energy", "Manufacturing & Industry", "Science"
]

/-- Outcome of the classification step `chain.ainvoke(...)`: either the
parsed list of category strings, or any exception (backend error, schema
non-conformance, ...) carrying its backend-specific diagnostic. -/
inductive ClassifierOutcome where
  | ok (categories : List String)
  | failure (diagnostic : String)
deriving Repr, DecidableEq

/-- `valid_categories = [c for c in result.categories if c in ALLOWED_NICHES]`
(src/main.py, line 87). -/
def validCategories (cats : List String) : List String :=
  cats.filter (fun c => decide (c ∈ ALLOWED_NICHES))

/-- `valid_categories or ["Business"]` (src/main.py, line 88): the clamped
list, or the default single-element list when the clamped list is empty. -/
def clampAndDefault (cats : List String) : List String :=
  if (validCategories cats).isEmpty then ["Business"] else validCategories cats

/-- The clamping policy written from the spec's §4.3 words: keep, in the
model's original order and with duplicates, exactly the exact case-sensitive
string matches against `ALLOWED_NICHES`. -/
def exactMatches : List String → List String
  | [] => []
  | c :: rest => if c ∈ ALLOWED_NICHES then c :: exactMatches rest else exactMatches rest

/-- The spec's §4.3 policy: substitute `["Business"]` when the filtered
list is empty, otherwise return the filtered list. -/
def clampSpec (cats : List String) : List String :=
  if exactMatches cats = [] then ["Business"] else exactMatches cats

/-- `categorize_website` from src/main.py, lines 60-94: run the extractor
outside the try-block (its failures propagate unchanged), then the
classifier inside the try-block (any exception becomes the fixed 500
response), then clamp and default. The classifier is modelled as an oracle
from the text it is given to its outcome. -/
def categorize_website (f : FetchOutcome) (classify : String → ClassifierOutcome) :
    Except Failure (List String) :=
  match extract_website_text_async f with
  | Except.error e => Except.error e
  | Except.ok text =>
    match classify text with
    | ClassifierOutcome.failure _ =>
      Except.error (Failure.httpException 500 "LLM failed to process the request.")
    | ClassifierOutcome.ok cats => Except.ok (clampAndDefault cats)

example : soupText (NodeList.cons (Node.elem "body"
    (NodeList.cons (Node.elem "header" (NodeList.cons (Node.text "Nav") NodeList.nil))
      (NodeList.cons (Node.elem "p" (NodeList.cons (Node.text " We sell tools. ") NodeList.nil))
        NodeList.nil))) NodeList.nil) = "We sell tools." := by decide

example : clampAndDefault ["Finance", "Casino", "Finance"] = ["Finance", "Casino", "Finance"] := by decide

example : clampAndDefault ["Crypto Stuff"] = ["Business"] := by decide

/-! ## Lemmas about the clamping step -/

lemma mem_validCategories {c : String} {cats : List String}
    (h : c ∈ validCategories cats) : c ∈ ALLOWED_NICHES := by
  have := List.mem_filter.mp h
  simpa using this.2

lemma clampAndDefault_ne_nil (cats : List String) : clampAndDefault cats ≠ [] := by
  unfold clampAndDefault
  split
  · simp
  · next h => simpa [List.isEmpty_iff] using h

lemma mem_clampAndDefault {c : String} {cats : List String}
    (h : c ∈ clampAndDefault cats) : c ∈ ALLOWED_NICHES := by
  unfold clampAndDefault at h
  split at h
  · simp at h
    subst h
    decide
  · exact mem_validCategories h

lemma validCategories_eq_exactMatches (cats : List String) :
    validCategories cats = exactMatches cats := by
  induction cats with
  | nil => rfl
  | cons c rest ih =>
    by_cases hc : c ∈ ALLOWED_NICHES <;>
      simp [validCategories, exactMatches, List.filter_cons, hc] at * <;>
      exact ih

lemma validCategories_of_all_mem {l : List String}
    (h : ∀ c ∈ l, c ∈ ALLOWED_NICHES) : validCategories l = l := by
  unfold validCategories
  rw [List.filter_eq_self]
  intro a ha
  simpa using h a ha

/-! ## Claim theorems -/

/-- Claim C1: every success of the categorize endpoint carries a non-empty
category list whose elements all belong to `ALLOWED_NICHES`. -/
theorem categorize_ok_invariant (f : FetchOutcome) (classify : String → ClassifierOutcome)
    (cats : List String) (h : categorize_website f classify = Except.ok cats) :
    cats ≠ [] ∧ ∀ c ∈ cats, c ∈ ALLOWED_NICHES := by
  cases hE : extract_website_text_async f with
  | error e => simp [categorize_website, hE] at h
  | ok text =>
    cases hC : classify text with
    | failure d => simp [categorize_website, hE, hC] at h
    | ok cs =>
      simp only [categorize_website, hE, hC, Except.ok.injEq] at h
      subst h
      exact ⟨clampAndDefault_ne_nil cs, fun c hc => mem_clampAndDefault hc⟩

/-- Closed instance of C1: a concrete request whose classifier reports
`["Finance"]` succeeds with that list, and the invariant holds of it. -/
theorem categorize_ok_invariant_witness :
    categorize_website (FetchOutcome.response ⟨200, NodeList.cons (Node.text "hello") NodeList.nil⟩)
        (fun _ => ClassifierOutcome.ok ["Finance"]) = Except.ok ["Finance"] ∧
      (["Finance"] ≠ [] ∧ ∀ c ∈ ["Finance"], c ∈ ALLOWED_NICHES) :=
  ⟨rfl, categorize_ok_invariant
    (FetchOutcome.response ⟨200, NodeList.cons (Node.text "hello") NodeList.nil⟩)
    (fun _ => ClassifierOutcome.ok ["Finance"]) ["Finance"] rfl⟩

/-- Claim C2: the handler's validation step agrees everywhere with the
spec's clamping policy — keep exactly the exact case-sensitive matches
against the allow-list, in order, duplicates kept, and substitute
`["Business"]` when the filtered list is empty; being a total function it
never fails. -/
theorem clamp_refines_spec (cats : List String) : clampAndDefault cats = clampSpec cats := by
  unfold clampAndDefault clampSpec
  rw [validCategories_eq_exactMatches]
  rcases h : exactMatches cats with _ | ⟨c, rest⟩ <;> simp [h]

/-- Claim C10: the clamp-and-default step is idempotent, and on any list
whose elements all belong to the allow-list the filter keeps every
element in place. -/
theorem clamp_idempotent :
    (∀ cats, clampAndDefault (clampAndDefault cats) = clampAndDefault cats) ∧
      (∀ l, (∀ c ∈ l, c ∈ ALLOWED_NICHES) → validCategories l = l) := by
  constructor
  · intro cats
    by_cases hvc : (validCategories cats).isEmpty = true
    · have h1 : clampAndDefault cats = ["Business"] := by simp [clampAndDefault, hvc]
      rw [h1]
      decide
    · have h1 : clampAndDefault cats = validCategories cats := by simp [clampAndDefault, hvc]
      rw [h1]
      have hfix : validCategories (validCategories cats) = validCategories cats :=
        validCategories_of_all_mem (fun c hc => mem_validCategories hc)
      simp [clampAndDefault, hfix, hvc]
  · exact fun l h => validCategories_of_all_mem h

/-- Closed instance of C10: idempotence at a mixed list, and the
keep-everything property at the default list `["Business"]`. -/
theorem clamp_idempotent_witness :
    clampAndDefault (clampAndDefault ["Casino", "xyz"]) = clampAndDefault ["Casino", "xyz"] ∧
      ((∀ c ∈ ["Business"], c ∈ ALLOWED_NICHES) ∧ validCategories ["Business"] = ["Business"]) :=
  ⟨clamp_idempotent.1 ["Casino", "xyz"], by decide, clamp_idempotent.2 ["Business"] (by decide)⟩

lemma fragments_decomposeList (banned : List String) (ns : NodeList) :
    fragmentsList (decomposeList banned ns) = goodFragmentsList banned ns := by
  induction ns using decomposeList.induct banned with
  | _ => simp_all [decomposeList, fragmentsList, goodFragmentsList]

/-- Claim C5: the text fragments surviving decomposition are exactly those
not inside any script/style/nav/footer/header element, the extracted text
is those fragments stripped and joined with a single space, and a banned
element contributes no fragment at all. -/
theorem tag_stripping (body : NodeList) :
    fragmentsList (decomposeList removedTags body) = goodFragmentsList removedTags body ∧
      soupText body = String.intercalate " "
        (((goodFragmentsList removedTags body).map strip).filter (fun s => decide (s ≠ ""))) ∧
      ∀ t cs rest, t ∈ removedTags →
        goodFragmentsList removedTags (NodeList.cons (Node.elem t cs) rest) =
          goodFragmentsList removedTags rest := by
  refine ⟨fragments_decomposeList removedTags body, ?_, ?_⟩
  · unfold soupText get_text
    rw [fragments_decomposeList]
  · intro t cs rest ht
    simp [goodFragmentsList, ht]

/-- Closed instance of C5 at a document with a text node next to a script
element: the script content contributes nothing, and the fragment lists
agree. -/
theorem tag_stripping_witness :
    ("script" ∈ removedTags ∧
        goodFragmentsList removedTags
            (NodeList.cons (Node.elem "script" (NodeList.cons (Node.text "evil") NodeList.nil))
              NodeList.nil) =
          goodFragmentsList removedTags NodeList.nil) ∧
      fragmentsList (decomposeList removedTags
          (NodeList.cons (Node.text "keep")
            (NodeList.cons (Node.elem "script" (NodeList.cons (Node.text "evil") NodeList.nil))
              NodeList.nil))) =
        goodFragmentsList removedTags
          (NodeList.cons (Node.text "keep")
            (NodeList.cons (Node.elem "script" (NodeList.cons (Node.text "evil") NodeList.nil))
              NodeList.nil)) :=
  ⟨⟨by decide,
    (tag_stripping (NodeList.cons (Node.text "keep")
        (NodeList.cons (Node.elem "script" (NodeList.cons (Node.text "evil") NodeList.nil))
          NodeList.nil))).2.2 "script"
      (NodeList.cons (Node.text "evil") NodeList.nil) NodeList.nil (by decide)⟩,
    (tag_stripping (NodeList.cons (Node.text "keep")
        (NodeList.cons (Node.elem "script" (NodeList.cons (Node.text "evil") NodeList.nil))
          NodeList.nil))).1⟩

/-- Claim C3 fails as stated: the program's allow-list is not
character-for-character the list the spec gives, because the spec writes
the third label without spaces around the slash. -/
theorem allowed_niches_ne_spec_list : ALLOWED_NICHES ≠ specNiches := by decide

/-- Claim C3, amended: `ALLOWED_NICHES` has the 19 labels of the spec's
list in the spec's order, except that its third label is
`"Technology / Gadgets & Technology"`, with spaces around the slash. -/
theorem allowed_niches_amended :
    ALLOWED_NICHES.length = 19 ∧
      ALLOWED_NICHES = specNiches.set 2 "Technology / Gadgets & Technology" := by
  decide

lemma status_ne_403_of_success {n : Nat} (h : is_success n = true) : n ≠ 403 := by
  intro heq
  subst heq
  simp [is_success] at h

lemma extract_success (r : Response) (h2xx : is_success r.status_code = true)
    (hne : soupText r.body ≠ "") :
    extract_website_text_async (FetchOutcome.response r) =
      Except.ok ((soupText r.body).take 5000) := by
  simp [extract_website_text_async, status_ne_403_of_success h2xx, h2xx, hne]

/-- Claim C4: on a successful fetch with non-empty stripped text, the
extractor returns the first 5000 characters of the stripped text — all of
it when it has at most 5000 characters — and the handler feeds exactly
that truncated text to the classifier. -/
theorem truncation (r : Response) (classify : String → ClassifierOutcome)
    (h2xx : is_success r.status_code = true) (hne : soupText r.body ≠ "") :
    extract_website_text_async (FetchOutcome.response r) =
        Except.ok ((soupText r.body).take 5000) ∧
      ((soupText r.body).take 5000).data = (soupText r.body).data.take 5000 ∧
      ((soupText r.body).length ≤ 5000 → (soupText r.body).take 5000 = soupText r.body) ∧
      (5000 < (soupText r.body).length →
        ((soupText r.body).take 5000).length = 5000 ∧
          (soupText r.body).data =
            ((soupText r.body).take 5000).data ++ (soupText r.body).data.drop 5000) ∧
      categorize_website (FetchOutcome.response r) classify =
        (match classify ((soupText r.body).take 5000) with
          | ClassifierOutcome.failure _ =>
            Except.error (Failure.httpException 500 "LLM failed to process the request.")
          | ClassifierOutcome.ok cats => Except.ok (clampAndDefault cats)) := by
  have hextract := extract_success r h2xx hne
  have hlen : (soupText r.body).length = (soupText r.body).data.length := rfl
  refine ⟨hextract, String.data_take _ _, ?_, ?_, ?_⟩
  · intro hle
    rw [String.take_eq]
    apply String.ext
    exact List.take_of_length_le (hlen ▸ hle)
  · intro hgt
    constructor
    · rw [String.take_eq]
      have hmk : ∀ l : List Char, (String.mk l).length = l.length := fun l => rfl
      rw [hmk, List.length_take]
      omega
    · rw [String.data_take]
      simp
  · simp [categorize_website, hextract]

/-- Closed instance of C4 at a short page: the extractor returns the take
of the stripped text, which equals the stripped text itself. -/
theorem truncation_witness :
    extract_website_text_async
        (FetchOutcome.response ⟨200, NodeList.cons (Node.text "hello") NodeList.nil⟩) =
      Except.ok ((soupText (NodeList.cons (Node.text "hello") NodeList.nil)).take 5000) :=
  (truncation ⟨200, NodeList.cons (Node.text "hello") NodeList.nil⟩
    (fun _ => ClassifierOutcome.ok ["SaaS"]) (by decide) (by decide)).1

/-- Claim C6: a fetch returning status 403 makes the request fail with
status 403 and the fixed access-denied detail, independently of the
classifier (which is therefore never consulted). -/
theorem status_403_mapping (r : Response) (h : r.status_code = 403)
    (classify classify₂ : String → ClassifierOutcome) :
    categorize_website (FetchOutcome.response r) classify =
        Except.error (Failure.httpException 403
          "Access denied by website (Cloudflare/Bot protection).") ∧
      categorize_website (FetchOutcome.response r) classify =
        categorize_website (FetchOutcome.response r) classify₂ := by
  have hextract : extract_website_text_async (FetchOutcome.response r) =
      Except.error (Failure.httpException 403
        "Access denied by website (Cloudflare/Bot protection).") := by
    simp [extract_website_text_async, h]
  constructor
  · simp [categorize_website, hextract]
  · simp [categorize_website, hextract]

/-- Closed instance of C6 at a 403 response. -/
theorem status_403_mapping_witness :
    categorize_website (FetchOutcome.response ⟨403, NodeList.nil⟩)
        (fun _ => ClassifierOutcome.ok ["Finance"]) =
      Except.error (Failure.httpException 403
        "Access denied by website (Cloudflare/Bot protection).") :=
  (status_403_mapping ⟨403, NodeList.nil⟩ rfl
    (fun _ => ClassifierOutcome.ok ["Finance"]) (fun _ => ClassifierOutcome.failure "x")).1

/-- Claim C7: a non-2xx non-403 fetch status, or a 2xx fetch whose
stripped text is empty, ends the request in the corresponding fetch-layer
error — never a 200 success. -/
theorem fetch_error_propagation (r : Response) (classify : String → ClassifierOutcome) :
    (is_success r.status_code = false → r.status_code ≠ 403 →
        categorize_website (FetchOutcome.response r) classify =
          Except.error (Failure.httpStatusError r.status_code)) ∧
      (is_success r.status_code = true → soupText r.body = "" →
        categorize_website (FetchOutcome.response r) classify =
          Except.error (Failure.valueError "Website returned no readable text.")) := by
  constructor
  · intro hbad h403
    have hextract : extract_website_text_async (FetchOutcome.response r) =
        Except.error (Failure.httpStatusError r.status_code) := by
      simp [extract_website_text_async, h403, hbad]
    simp [categorize_website, hextract]
  · intro h2xx hempty
    have h403 := status_ne_403_of_success h2xx
    have hextract : extract_website_text_async (FetchOutcome.response r) =
        Except.error (Failure.valueError "Website returned no readable text.") := by
      simp [extract_website_text_async, h403, h2xx, hempty]
    simp [categorize_website, hextract]

/-- Closed instances of C7: a 404 fetch, and a 200 fetch with an empty
body, each mapped to the corresponding fetch-layer error. -/
theorem fetch_error_propagation_witness :
    categorize_website (FetchOutcome.response ⟨404, NodeList.nil⟩)
        (fun _ => ClassifierOutcome.ok ["Finance"]) =
      Except.error (Failure.httpStatusError 404) ∧
    categorize_website (FetchOutcome.response ⟨200, NodeList.nil⟩)
        (fun _ => ClassifierOutcome.ok ["Finance"]) =
      Except.error (Failure.valueError "Website returned no readable text.") :=
  ⟨(fetch_error_propagation ⟨404, NodeList.nil⟩
      (fun _ => ClassifierOutcome.ok ["Finance"])).1 (by decide) (by decide),
    (fetch_error_propagation ⟨200, NodeList.nil⟩
      (fun _ => ClassifierOutcome.ok ["Finance"])).2 (by decide) (by decide)⟩

/-- Claim C8: any classifier failure, whatever its backend diagnostic,
yields status 500 with the fixed opaque detail. -/
theorem classifier_failure_mapping (f : FetchOutcome) (classify : String → ClassifierOutcome)
    (text : String) (hok : extract_website_text_async f = Except.ok text)
    (d : String) (hfail : classify text = ClassifierOutcome.failure d) :
    categorize_website f classify =
      Except.error (Failure.httpException 500 "LLM failed to process the request.") := by
  simp [categorize_website, hok, hfail]

/-- Closed instance of C8: a classifier failure with a backend-specific
diagnostic is reported as the fixed 500 detail. -/
theorem classifier_failure_mapping_witness :
    categorize_website (FetchOutcome.response ⟨200, NodeList.cons (Node.text "hi") NodeList.nil⟩)
        (fun _ => ClassifierOutcome.failure "quota exceeded") =
      Except.error (Failure.httpException 500 "LLM failed to process the request.") :=
  classifier_failure_mapping
    (FetchOutcome.response ⟨200, NodeList.cons (Node.text "hi") NodeList.nil⟩)
    (fun _ => ClassifierOutcome.failure "quota exceeded")
    ((soupText (NodeList.cons (Node.text "hi") NodeList.nil)).take 5000)
    (extract_success ⟨200, NodeList.cons (Node.text "hi") NodeList.nil⟩ (by decide) (by decide))
    "quota exceeded" rfl

/-- Claim C9: on any extractor failure the request ends with exactly that
failure, for every classifier — so the classifier is never consulted and
the extractor error is never replaced by the generic 500 detail. -/
theorem extractor_failure_precedence (f : FetchOutcome) (e : Failure)
    (h : extract_website_text_async f = Except.error e) :
    (∀ classify, categorize_website f classify = Except.error e) ∧
      e ≠ Failure.httpException 500 "LLM failed to process the request." := by
  constructor
  · intro classify
    simp [categorize_website, h]
  · cases f with
    | requestError msg =>
      simp [extract_website_text_async] at h
      subst h
      simp
    | response r =>
      by_cases h1 : r.status_code = 403
      · have hx : extract_website_text_async (FetchOutcome.response r) =
            Except.error (Failure.httpException 403
              "Access denied by website (Cloudflare/Bot protection).") := by
          simp [extract_website_text_async, h1]
        rw [hx] at h
        simp at h
        subst h
        simp
      · by_cases h2 : (!is_success r.status_code) = true
        · have hx : extract_website_text_async (FetchOutcome.response r) =
              Except.error (Failure.httpStatusError r.status_code) := by
            simp [extract_website_text_async, h1, h2]
          rw [hx] at h
          simp at h
          subst h
          simp
        · have h2xx : is_success r.status_code = true := by simpa using h2
          by_cases h3 : soupText r.body = ""
          · have hx : extract_website_text_async (FetchOutcome.response r) =
                Except.error (Failure.valueError "Website returned no readable text.") := by
              simp [extract_website_text_async, h1, h2xx, h3]
            rw [hx] at h
            simp at h
            subst h
            simp
          · rw [extract_success r h2xx h3] at h
            exact Except.noConfusion h

/-- Closed instance of C9: a network failure propagates as the 502
network-error response, which differs from the 500 classifier detail. -/
theorem extractor_failure_precedence_witness :
    categorize_website (FetchOutcome.requestError "dns failure")
        (fun _ => ClassifierOutcome.ok ["Finance"]) =
      Except.error (Failure.httpException 502 "Network error: dns failure") ∧
    Failure.httpException 502 "Network error: dns failure" ≠
      Failure.httpException 500 "LLM failed to process the request." :=
  ⟨(extractor_failure_precedence (FetchOutcome.requestError "dns failure")
      (Failure.httpException 502 "Network error: dns failure") rfl).1
      (fun _ => ClassifierOutcome.ok ["Finance"]),
    (extractor_failure_precedence (FetchOutcome.requestError "dns failure")
      (Failure.httpException 502 "Network error: dns failure") rfl).2⟩

end WebCat
